import Mathlib

/-
Verification of the blue/green deployment configuration and rollout model of
the devops-challenge repository.

The repository is an AWS CDK program.  Its declarative resource wiring is
embedded below as plain Lean data (target-group health checks, listener
rules, the ECS deployment configuration, the lifecycle-hook Lambda handler,
the stack outputs).  The rollout control loop itself is executed by the
managed ECS blue/green deployment engine, not by code in the repository;
following the specification's §4.4 state machine it is embedded here as an
explicit step function over a controller state (definitions marked
"Modelled from the spec").
-/

namespace DevopsChallenge

/-- The two deployment colors (target pools) declared in app-stack.ts. -/
inductive Pool : Type
  | blue
  | green
deriving DecidableEq, Repr

/-- A weighted-forward entry of a listener rule: a (pool, weight) pair.
Weights are integers in the embedding so that non-negativity is a statement
rather than a typing artifact. -/
abbrev WeightList : Type := List (Pool × Int)

/-- Sum of the weights of a weighted-forward list. -/
def sumWeights (ws : WeightList) : Int :=
  (ws.map Prod.snd).sum

/-- An ALB listener rule as declared in app-stack.ts: a priority, path-pattern
conditions, and a weighted-forward action. -/
structure ListenerRule : Type where
  priority : Nat
  pathPatterns : List String
  forward : WeightList
deriving DecidableEq, Repr

/-- app-stack.ts `mainRule`: priority 101, condition pathPatterns ['/*'],
action weightedForward blueTg weight 100, greenTg weight 0. -/
def mainRule : ListenerRule :=
  { priority := 101
  , pathPatterns := ["/*"]
  , forward := [(Pool.blue, 100), (Pool.green, 0)] }

/-- All weighted-forward listener rules attached to the ALB listener by the
program.  app-stack.ts attaches exactly one (`mainRule`); the listener's
default action and `Default404Action` are fixed 404 responses, not rules. -/
def listenerRules : List ListenerRule := [mainRule]

/-- A rule is the production catch-all when its conditions match every
request path (the `/*` pattern). -/
def isCatchAll (r : ListenerRule) : Bool :=
  r.pathPatterns.contains "/*"

/-! ### Health-check configuration (app-stack.ts target groups, app-service.ts container) -/

/-- An ALB target-group health-check block as declared in app-stack.ts.
Threshold fields are `Option` because the source leaves some unset
(CloudFormation then applies the platform defaults). -/
structure TgHealthCheck : Type where
  path : String
  port : Nat
  intervalSeconds : Nat
  timeoutSeconds : Nat
  healthyThresholdCount : Option Nat
  unhealthyThresholdCount : Option Nat
deriving DecidableEq, Repr

/-- app-stack.ts `BlueTg` health check: path /healthz, port 8080, interval 30 s,
timeout 5 s, unhealthyThresholdCount 5, healthy threshold left at default. -/
def blueTgHealthCheck : TgHealthCheck :=
  { path := "/healthz", port := 8080, intervalSeconds := 30, timeoutSeconds := 5
  , healthyThresholdCount := none, unhealthyThresholdCount := some 5 }

/-- app-stack.ts `GreenTg` health check: path /healthz, port 8080, interval 30 s,
timeout 5 s, both thresholds left at defaults. -/
def greenTgHealthCheck : TgHealthCheck :=
  { path := "/healthz", port := 8080, intervalSeconds := 30, timeoutSeconds := 5
  , healthyThresholdCount := none, unhealthyThresholdCount := none }

/-- An ECS container health-check block as declared in app-service.ts.  Its
configuration surface has a consecutive-failure count (`retries`) but no
healthy-threshold field at all: one probe success marks the container healthy. -/
structure ContainerHealthCheck : Type where
  command : List String
  intervalSeconds : Nat
  timeoutSeconds : Nat
  retries : Nat
  startPeriodSeconds : Nat
deriving DecidableEq, Repr

/-- app-service.ts `AppContainer` health check: a curl GET of
http://localhost:8080/healthz, interval 30 s, timeout 5 s, retries 3,
start period 30 s. -/
def appContainerHealthCheck : ContainerHealthCheck :=
  { command := ["CMD-SHELL", "curl -f http://localhost:8080/healthz || exit 1"]
  , intervalSeconds := 30, timeoutSeconds := 5, retries := 3, startPeriodSeconds := 30 }

/-- A uniform view of one configured liveness probe: the probed path, timing,
and the consecutive-success count N and consecutive-failure count M used to
classify a member.  `healthySuccesses = none` records that the probe's
configuration surface has no such setting. -/
structure Probe : Type where
  path : String
  intervalSeconds : Nat
  timeoutSeconds : Nat
  healthySuccesses : Option Nat
  unhealthyFailures : Nat
deriving DecidableEq, Repr

/-- ALB default healthy threshold for a target group whose health-check block
leaves `healthyThresholdCount` unset (platform default, 5). -/
def albDefaultHealthyThreshold : Nat := 5

/-- ALB default unhealthy threshold for a target group whose health-check block
leaves `unhealthyThresholdCount` unset (platform default, 2). -/
def albDefaultUnhealthyThreshold : Nat := 2

/-- Probe view of a target-group health check, with platform defaults filled
in for unset threshold fields. -/
def tgProbe (c : TgHealthCheck) : Probe :=
  { path := c.path
  , intervalSeconds := c.intervalSeconds
  , timeoutSeconds := c.timeoutSeconds
  , healthySuccesses := some (c.healthyThresholdCount.getD albDefaultHealthyThreshold)
  , unhealthyFailures := c.unhealthyThresholdCount.getD albDefaultUnhealthyThreshold }

/-- Probe view of the container health check.  The probed path is the
/healthz path of the curl command; the schema offers only the
consecutive-failure count (`retries`), no healthy-threshold setting
(`healthySuccesses = none`): Docker marks the container healthy on the first
probe success. -/
def containerProbe (c : ContainerHealthCheck) : Probe :=
  { path := "/healthz"
  , intervalSeconds := c.intervalSeconds
  , timeoutSeconds := c.timeoutSeconds
  , healthySuccesses := none
  , unhealthyFailures := c.retries }

/-- Every health probe configured by the program. -/
def configuredProbes : List Probe :=
  [tgProbe blueTgHealthCheck, tgProbe greenTgHealthCheck,
   containerProbe appContainerHealthCheck]

/-! ### Listener rule evaluation (ALB listener of ingress-stack.ts, rules of app-stack.ts) -/

/-- The result of evaluating the listener for a request: either a weighted
forward to the pools, or a fixed response. -/
inductive RouteAction : Type
  | forward (targets : WeightList)
  | fixedResponse (status : Nat) (body : String)
deriving DecidableEq, Repr

/-- ALB path-pattern matching on character lists: a literal character matches
itself, a question mark matches any single character, and a star matches zero
or more characters.  The program only declares the pattern "/*". -/
def globMatch : List Char → List Char → Bool
  | [], [] => true
  | [], _ :: _ => false
  | '*' :: ps, [] => globMatch ps []
  | '*' :: ps, c :: cs => globMatch ps (c :: cs) || globMatch ('*' :: ps) cs
  | '?' :: ps, _ :: cs => globMatch ps cs
  | p :: ps, c :: cs => (p = c) && globMatch ps cs
  | _ :: _, [] => false
termination_by ps cs => (ps.length, cs.length)

/-- Whether a listener rule's conditions match a request path. -/
def ruleMatches (r : ListenerRule) (path : List Char) : Bool :=
  r.pathPatterns.any (fun pat => globMatch pat.data path)

/-- The listener's default action after app-stack.ts `addAction
Default404Action`: a fixed 404 response with body "Wrong place". -/
def listenerDefaultAction : RouteAction :=
  RouteAction.fixedResponse 404 "Wrong place"

/-- ALB rule evaluation: rules are consulted in order (ascending priority),
the first rule whose conditions match wins, and the listener default action
applies when no rule matches. -/
def evaluateRules : List ListenerRule → List Char → RouteAction
  | [], _ => listenerDefaultAction
  | r :: rs, path =>
      if ruleMatches r path then RouteAction.forward r.forward
      else evaluateRules rs path

/-! ### ECS deployment configuration and lifecycle hook (app-stack.ts, app-service.ts) -/

/-- One entry of `cfn.deploymentConfiguration.lifecycleHooks` in app-stack.ts:
the rollout stages at which the hook target is invoked. -/
structure LifecycleHookDecl : Type where
  lifecycleStages : List String
deriving DecidableEq, Repr

/-- The shape of `cfn.deploymentConfiguration` in app-stack.ts. -/
structure DeployConfiguration : Type where
  strategy : String
  bakeTimeInMinutes : Nat
  lifecycleHooks : List LifecycleHookDecl
deriving DecidableEq, Repr

/-- app-stack.ts `cfn.deploymentConfiguration`: BLUE_GREEN strategy, a
15-minute bake time, and a single lifecycle hook declared for the single
stage POST_TEST_TRAFFIC_SHIFT. -/
def deployConfiguration : DeployConfiguration :=
  { strategy := "BLUE_GREEN"
  , bakeTimeInMinutes := 15
  , lifecycleHooks := [{ lifecycleStages := ["POST_TEST_TRAFFIC_SHIFT"] }] }

/-- The hook verdict values of the lifecycle-hook response contract. -/
inductive HookStatus : Type
  | SUCCEEDED
  | FAILED
deriving DecidableEq, Repr

/-- The lifecycle-hook response shape: a single hookStatus field. -/
structure HookResponse : Type where
  hookStatus : HookStatus
deriving DecidableEq, Repr

/-- The lifecycle-hook invocation payload of the spec contract (§6):
rollout identifier, stage name, timestamp. -/
structure HookEvent : Type where
  rolloutId : String
  stage : String
  timestampMs : Nat
deriving DecidableEq, Repr

/-- app-service.ts `BgHookFn` inline handler: logs the event and returns
hookStatus SUCCEEDED for every input event. -/
def hookHandler (_event : HookEvent) : HookResponse :=
  { hookStatus := HookStatus.SUCCEEDED }

/-- app-service.ts `BgHookFn` function timeout: 90 seconds. -/
def hookFnTimeoutSeconds : Nat := 90

/-! ### Service sizing (app-stack.ts AppService instantiation) -/

/-- The AppService construct arguments fixed in app-stack.ts. -/
structure AppServiceConfig : Type where
  cpu : Nat
  memoryLimitMiB : Nat
  desiredCount : Nat
deriving DecidableEq, Repr

/-- app-stack.ts instantiates AppService with cpu 256, memory 512 MiB and
desiredCount 0. -/
def appServiceConfig : AppServiceConfig :=
  { cpu := 256, memoryLimitMiB := 512, desiredCount := 0 }

/-- app-service.ts passes `props.desiredCount` through unchanged to the
FargateService declaration. -/
def fargateServiceDesiredCount : Nat := appServiceConfig.desiredCount

/-- Spec §3 TargetPool readiness: a pool is ready only when the actual
healthy member count is at least the desired count. -/
def poolReady (desired healthy : Nat) : Bool := decide (desired ≤ healthy)

/-- A weighted forward can deliver a request only when the pool has at
least one healthy registered member; with zero running tasks the pool has
zero members. -/
def canServeTraffic (healthyMembers : Nat) : Bool := decide (0 < healthyMembers)

/-! ### Rollout controller state machine

Modelled from the spec: the rollout control loop (spec §4.4, §7) is executed
by the managed ECS blue/green deployment engine, which is configured by — but
not implemented in — this repository.  The states, transitions and failure
taxonomy below follow the spec's §4.4 state machine and §7 error taxonomy;
the bake duration is taken from the repository's declared
`deployConfiguration.bakeTimeInMinutes`. -/

/-- The rollout phases of spec §4.4. -/
inductive Phase : Type
  | PENDING
  | PROVISIONING
  | TEST_TRAFFIC
  | POST_TEST_HOOK
  | BAKING
  | SHIFTING
  | FINALIZING
  | SUCCEEDED
  | ROLLING_BACK
  | ROLLEDBACK
  | FAILED
deriving DecidableEq, Repr

/-- The four rollout-failure kinds of spec §7. -/
inductive FailureKind : Type
  | ProvisionFailure
  | HookFailure
  | HealthRegression
  | RoutingApplyFailure
deriving DecidableEq, Repr

/-- Modelled from the spec: the controller state of one rollout — current
phase, old/new pool colors, the production routing weights, the weights
saved when provisioning started (restored on rollback), the remaining bake
minutes, whether the test rule is installed, and the recorded failure. -/
structure ControllerState : Type where
  phase : Phase
  oldPool : Pool
  newPool : Pool
  prodWeights : WeightList
  savedWeights : WeightList
  bakeRemainingMinutes : Nat
  testRuleInstalled : Bool
  failureReason : Option FailureKind
deriving DecidableEq, Repr

/-- Modelled from the spec: the events the controller reacts to. -/
inductive Event : Type
  | newImage
  | poolHealthy
  | provisionTimeout
  | provisionInfraFail
  | testShifted
  | hookVerdict (v : HookStatus)
  | bakeTick (healthy : Bool)
  | applyWeights (ok : Bool)
  | drained
  | abortRollout
  | rollbackApplied
deriving DecidableEq, Repr

/-- Whether a phase is terminal (spec §3: succeeded, rolledback, failed). -/
def isTerminal (p : Phase) : Bool :=
  p = Phase.SUCCEEDED || p = Phase.ROLLEDBACK || p = Phase.FAILED

/-- Modelled from the spec: one transition of the §4.4 state machine.
Production weights change in exactly two places, both atomic full
replacements: the SHIFTING flip to 0% old / 100% new, and the rollback
restore of the saved weights.  Events that do not apply in the current
phase leave the state unchanged. -/
def step (s : ControllerState) (e : Event) : ControllerState :=
  match s.phase, e with
  | Phase.PENDING, Event.newImage =>
      { s with phase := Phase.PROVISIONING, savedWeights := s.prodWeights }
  | Phase.PROVISIONING, Event.poolHealthy =>
      { s with phase := Phase.TEST_TRAFFIC }
  | Phase.PROVISIONING, Event.provisionTimeout =>
      { s with phase := Phase.ROLLING_BACK
             , failureReason := some FailureKind.ProvisionFailure }
  | Phase.PROVISIONING, Event.provisionInfraFail =>
      { s with phase := Phase.FAILED }
  | Phase.TEST_TRAFFIC, Event.testShifted =>
      { s with phase := Phase.POST_TEST_HOOK, testRuleInstalled := true }
  | Phase.POST_TEST_HOOK, Event.hookVerdict v =>
      if v = HookStatus.SUCCEEDED then
        { s with phase := Phase.BAKING
               , bakeRemainingMinutes := deployConfiguration.bakeTimeInMinutes }
      else
        { s with phase := Phase.ROLLING_BACK
               , failureReason := some FailureKind.HookFailure }
  | Phase.BAKING, Event.bakeTick h =>
      if h then
        if s.bakeRemainingMinutes ≤ 1 then
          { s with phase := Phase.SHIFTING, bakeRemainingMinutes := 0 }
        else
          { s with bakeRemainingMinutes := s.bakeRemainingMinutes - 1 }
      else
        { s with phase := Phase.ROLLING_BACK
               , failureReason := some FailureKind.HealthRegression }
  | Phase.SHIFTING, Event.applyWeights ok =>
      if ok then
        { s with phase := Phase.FINALIZING
               , prodWeights := [(s.oldPool, 0), (s.newPool, 100)] }
      else
        { s with phase := Phase.ROLLING_BACK
               , failureReason := some FailureKind.RoutingApplyFailure }
  | Phase.FINALIZING, Event.drained =>
      { s with phase := Phase.SUCCEEDED, testRuleInstalled := false }
  | Phase.ROLLING_BACK, Event.rollbackApplied =>
      { s with phase := Phase.ROLLEDBACK
             , prodWeights := s.savedWeights
             , testRuleInstalled := false }
  | p, Event.abortRollout =>
      if isTerminal p || p = Phase.ROLLING_BACK then s
      else { s with phase := Phase.ROLLING_BACK }
  | _, _ => s

/-- Run the controller over a list of events. -/
def run (s : ControllerState) (es : List Event) : ControllerState :=
  es.foldl step s

/-- The controller state before a rollout starts: phase PENDING with the
production weights `w` in effect. -/
def initState (old new : Pool) (w : WeightList) : ControllerState :=
  { phase := Phase.PENDING
  , oldPool := old
  , newPool := new
  , prodWeights := w
  , savedWeights := w
  , bakeRemainingMinutes := 0
  , testRuleInstalled := false
  , failureReason := none }

/-- The failure kind an event signals, per the §7 taxonomy. -/
def isFailureEvent : Event → Option FailureKind
  | Event.provisionTimeout => some FailureKind.ProvisionFailure
  | Event.hookVerdict HookStatus.FAILED => some FailureKind.HookFailure
  | Event.bakeTick false => some FailureKind.HealthRegression
  | Event.applyWeights false => some FailureKind.RoutingApplyFailure
  | _ => none

/-- The phase at which each gated event can occur. -/
def failureSite : Event → Option Phase
  | Event.provisionTimeout => some Phase.PROVISIONING
  | Event.hookVerdict _ => some Phase.POST_TEST_HOOK
  | Event.bakeTick _ => some Phase.BAKING
  | Event.applyWeights _ => some Phase.SHIFTING
  | _ => none

/-- Outputs of the load-balancer stack (ingress-stack.ts). -/
structure StackOutput : Type where
  name : String
  value : String
deriving DecidableEq, Repr

/-- ingress-stack.ts declares exactly one CfnOutput, `AlbDnsName`, holding
the ALB DNS name token, with no surrounding conditional. -/
def loadBalancerStackOutputs (dns : String) : List StackOutput :=
  [{ name := "AlbDnsName", value := dns }]

/-- The stack outputs as observed while the rollout controller is in state
`s`.  The CfnOutput declaration in ingress-stack.ts reads no deployment
state, so the outputs are the same constant list in every controller state. -/
def outputsDuring (_s : ControllerState) (dns : String) : List StackOutput :=
  loadBalancerStackOutputs dns

/-! ### Invariants of the controller model -/

/-- The saved weights stay `w`, and the production weights stay `w` in every
phase except FINALIZING, SUCCEEDED and ROLLING_BACK (the phases at or after
the production flip). -/
def WeightsIntact (w : WeightList) (s : ControllerState) : Prop :=
  s.savedWeights = w ∧
  (s.phase ≠ Phase.FINALIZING → s.phase ≠ Phase.SUCCEEDED →
    s.phase ≠ Phase.ROLLING_BACK → s.prodWeights = w)

/-- Both the production and the saved weight tables sum to the fixed total
100. -/
def SumsToHundred (s : ControllerState) : Prop :=
  sumWeights s.prodWeights = 100 ∧ sumWeights s.savedWeights = 100

lemma step_weightsIntact {w : WeightList} {s : ControllerState} (e : Event)
    (h : WeightsIntact w s) : WeightsIntact w (step s e) := by
  obtain ⟨hsave, hprod⟩ := h
  rcases s with ⟨p, op, np, pw, sw, br, tr, fr⟩
  simp only [WeightsIntact] at hsave hprod ⊢
  cases p <;> cases e <;>
    simp_all [step, isTerminal] <;> split_ifs <;> simp_all

lemma run_weightsIntact {w : WeightList} {s : ControllerState} (es : List Event)
    (h : WeightsIntact w s) : WeightsIntact w (run s es) := by
  induction es generalizing s with
  | nil => exact h
  | cons e es ih => exact ih (step_weightsIntact e h)

lemma initState_weightsIntact (old new : Pool) (w : WeightList) :
    WeightsIntact w (initState old new w) := by
  constructor <;> simp [initState]

lemma step_sumsToHundred {s : ControllerState} (e : Event)
    (h : SumsToHundred s) : SumsToHundred (step s e) := by
  obtain ⟨hprod, hsave⟩ := h
  rcases s with ⟨p, op, np, pw, sw, br, tr, fr⟩
  simp only [SumsToHundred] at hprod hsave ⊢
  cases p <;> cases e <;>
    simp_all [step, isTerminal, sumWeights] <;> split_ifs <;> simp_all

lemma run_sumsToHundred {s : ControllerState} (es : List Event)
    (h : SumsToHundred s) : SumsToHundred (run s es) := by
  induction es generalizing s with
  | nil => exact h
  | cons e es ih => exact ih (step_sumsToHundred e h)

lemma step_bakeTick_not_baking {s : ControllerState} (b : Bool)
    (h : s.phase ≠ Phase.BAKING) : step s (Event.bakeTick b) = s := by
  rcases s with ⟨p, op, np, pw, sw, br, tr, fr⟩
  cases p <;> simp_all [step]

lemma run_bakeTicks_not_baking {s : ControllerState} (hs : List Bool)
    (h : s.phase ≠ Phase.BAKING) : run s (hs.map Event.bakeTick) = s := by
  induction hs with
  | nil => rfl
  | cons b t ih =>
      have h1 : run s ((b :: t).map Event.bakeTick)
          = run (step s (Event.bakeTick b)) (t.map Event.bakeTick) := rfl
      rw [h1, step_bakeTick_not_baking b h]
      exact ih

lemma bake_shifting_requires_healthy_ticks (hs : List Bool) :
    ∀ s : ControllerState, s.phase = Phase.BAKING →
      (run s (hs.map Event.bakeTick)).phase = Phase.SHIFTING →
      s.bakeRemainingMinutes ≤ hs.length
        ∧ (hs.take s.bakeRemainingMinutes).all id = true := by
  induction hs with
  | nil =>
      intro s hp hrun
      rw [List.map_nil] at hrun
      rw [show run s [] = s from rfl, hp] at hrun
      cases hrun
  | cons b t ih =>
      intro s hp hrun
      rcases s with ⟨p, op, np, pw, sw, br, tr, fr⟩
      dsimp only at hp hrun ⊢
      subst hp
      cases b with
      | false =>
          have hrun' :
              (run (ControllerState.mk Phase.ROLLING_BACK op np pw sw br tr
                  (some FailureKind.HealthRegression))
                (t.map Event.bakeTick)).phase = Phase.SHIFTING := hrun
          rw [run_bakeTicks_not_baking t (by simp)] at hrun'
          simp at hrun'
      | true =>
          by_cases hbr : br ≤ 1
          · refine ⟨by simp; omega, ?_⟩
            have hb01 : br = 0 ∨ br = 1 := by omega
            rcases hb01 with h0 | h0 <;> subst h0 <;> simp
          · have hstep :
                step (ControllerState.mk Phase.BAKING op np pw sw br tr fr)
                    (Event.bakeTick true)
                  = ControllerState.mk Phase.BAKING op np pw sw (br - 1) tr fr := by
              simp [step, hbr]
            have hrun' :
                (run (ControllerState.mk Phase.BAKING op np pw sw (br - 1) tr fr)
                  (t.map Event.bakeTick)).phase = Phase.SHIFTING := by
              rw [← hstep]; exact hrun
            obtain ⟨h1, h2⟩ :=
              ih (ControllerState.mk Phase.BAKING op np pw sw (br - 1) tr fr) rfl hrun'
            dsimp only at h1 h2
            refine ⟨by simp; omega, ?_⟩
            obtain ⟨k, rfl⟩ : ∃ k, br = k + 2 := ⟨br - 2, by omega⟩
            have hk : k + 2 - 1 = k + 1 := by omega
            rw [hk] at h2
            simpa [List.take_succ_cons] using h2

lemma bake_healthy_run_shifts :
    ∀ (r : Nat) (s : ControllerState), s.phase = Phase.BAKING →
      s.bakeRemainingMinutes = r → 0 < r →
      (run s (List.replicate r (Event.bakeTick true))).phase = Phase.SHIFTING := by
  intro r
  induction r with
  | zero => intro s _ _ h; exact absurd h (by omega)
  | succ k ih =>
      intro s hp hbr _
      rcases s with ⟨p, op, np, pw, sw, br, tr, fr⟩
      dsimp only at hp hbr
      subst hp
      subst hbr
      by_cases hk : k = 0
      · subst hk
        have hstep :
            step (ControllerState.mk Phase.BAKING op np pw sw 1 tr fr)
                (Event.bakeTick true)
              = ControllerState.mk Phase.SHIFTING op np pw sw 0 tr fr := by
          simp [step]
        have h1 :
            run (ControllerState.mk Phase.BAKING op np pw sw 1 tr fr)
                (List.replicate 1 (Event.bakeTick true))
              = step (ControllerState.mk Phase.BAKING op np pw sw 1 tr fr)
                  (Event.bakeTick true) := rfl
        rw [h1, hstep]
      · have h2 : ¬ (k + 1 ≤ 1) := by omega
        have hstep :
            step (ControllerState.mk Phase.BAKING op np pw sw (k + 1) tr fr)
                (Event.bakeTick true)
              = ControllerState.mk Phase.BAKING op np pw sw k tr fr := by
          simp [step, h2]
        have h1 :
            run (ControllerState.mk Phase.BAKING op np pw sw (k + 1) tr fr)
                (List.replicate (k + 1) (Event.bakeTick true))
              = run (step (ControllerState.mk Phase.BAKING op np pw sw (k + 1) tr fr)
                  (Event.bakeTick true)) (List.replicate k (Event.bakeTick true)) := by
          rw [List.replicate_succ]; rfl
        rw [h1, hstep]
        exact ih _ rfl rfl (by omega)

lemma step_hook_succeeded {s : ControllerState} (h : s.phase = Phase.POST_TEST_HOOK) :
    step s (Event.hookVerdict HookStatus.SUCCEEDED)
      = { s with phase := Phase.BAKING
               , bakeRemainingMinutes := deployConfiguration.bakeTimeInMinutes } := by
  rcases s with ⟨p, op, np, pw, sw, br, tr, fr⟩
  dsimp only at h
  subst h
  rfl

lemma globMatch_star (cs : List Char) : globMatch ['*'] cs = true := by
  induction cs with
  | nil => simp [globMatch]
  | cons c cs ih => simp [globMatch, ih]

lemma globMatch_slash_star (cs : List Char) :
    globMatch ['/', '*'] ('/' :: cs) = true := by
  simp [globMatch, globMatch_star]

/-- Claim C1: every failure of the four kinds (ProvisionFailure, HookFailure,
HealthRegression, RoutingApplyFailure), occurring at the phase that gates it,
moves the controller to ROLLING_BACK automatically with the production
weights untouched; any execution from the initial state that reaches
ROLLEDBACK has production weights equal to the weights in effect immediately
before PROVISIONING started; and at the moment any of the four failure kinds
can occur the production weights still equal those pre-rollout weights, so
the stable endpoint keeps serving the previously-active pool throughout and
after a failed rollout. -/
theorem c1_failures_roll_back_and_restore_weights (old new : Pool) (w : WeightList) :
    (∀ (s : ControllerState) (e : Event) (k : FailureKind),
        isFailureEvent e = some k → failureSite e = some s.phase →
        (step s e).phase = Phase.ROLLING_BACK ∧ (step s e).prodWeights = s.prodWeights)
    ∧ (∀ es : List Event,
        (run (initState old new w) es).phase = Phase.ROLLEDBACK →
        (run (initState old new w) es).prodWeights = w)
    ∧ (∀ (es : List Event) (e : Event) (k : FailureKind),
        isFailureEvent e = some k →
        failureSite e = some (run (initState old new w) es).phase →
        (run (initState old new w) es).prodWeights = w) := by
  refine ⟨?_, ?_, ?_⟩
  · intro s e k hke hsite
    rcases s with ⟨p, op, np, pw, sw, br, tr, fr⟩
    dsimp only at hsite ⊢
    cases e with
    | provisionTimeout =>
        simp only [failureSite, Option.some_inj] at hsite
        subst hsite
        exact ⟨rfl, rfl⟩
    | hookVerdict v =>
        cases v with
        | SUCCEEDED => simp [isFailureEvent] at hke
        | FAILED =>
            simp only [failureSite, Option.some_inj] at hsite
            subst hsite
            exact ⟨rfl, rfl⟩
    | bakeTick h =>
        cases h with
        | true => simp [isFailureEvent] at hke
        | false =>
            simp only [failureSite, Option.some_inj] at hsite
            subst hsite
            exact ⟨rfl, rfl⟩
    | applyWeights ok =>
        cases ok with
        | true => simp [isFailureEvent] at hke
        | false =>
            simp only [failureSite, Option.some_inj] at hsite
            subst hsite
            exact ⟨rfl, rfl⟩
    | newImage => simp [isFailureEvent] at hke
    | poolHealthy => simp [isFailureEvent] at hke
    | provisionInfraFail => simp [isFailureEvent] at hke
    | testShifted => simp [isFailureEvent] at hke
    | drained => simp [isFailureEvent] at hke
    | abortRollout => simp [isFailureEvent] at hke
    | rollbackApplied => simp [isFailureEvent] at hke
  · intro es hphase
    have hinv := run_weightsIntact es (initState_weightsIntact old new w)
    exact hinv.2 (by simp [hphase]) (by simp [hphase]) (by simp [hphase])
  · intro es e k hke hsite
    have hinv := run_weightsIntact es (initState_weightsIntact old new w)
    refine hinv.2 ?_ ?_ ?_ <;>
      · intro hph
        rw [hph] at hsite
        cases e <;> simp [failureSite] at hsite hke

/-- Claim C1 witness: in the declared 100/0 configuration, a provisioning
failure classified as ProvisionFailure rolls back to ROLLEDBACK with the
production weights restored to 100 blue / 0 green. -/
theorem c1_witness :
    isFailureEvent Event.provisionTimeout = some FailureKind.ProvisionFailure
    ∧ (run (initState Pool.blue Pool.green [(Pool.blue, 100), (Pool.green, 0)])
        [Event.newImage, Event.provisionTimeout, Event.rollbackApplied]).phase
        = Phase.ROLLEDBACK
    ∧ (run (initState Pool.blue Pool.green [(Pool.blue, 100), (Pool.green, 0)])
        [Event.newImage, Event.provisionTimeout, Event.rollbackApplied]).prodWeights
        = [(Pool.blue, 100), (Pool.green, 0)] :=
  ⟨by decide, by decide,
    (c1_failures_roll_back_and_restore_weights Pool.blue Pool.green
        [(Pool.blue, 100), (Pool.green, 0)]).2.1
      [Event.newImage, Event.provisionTimeout, Event.rollbackApplied] (by decide)⟩

/-- Claim C3: the rollout bakes for the fixed declared duration of 15 minutes
after the test-traffic stage: a SUCCEEDED post-test hook verdict arms a
15-minute countdown in BAKING; BAKING reaches SHIFTING only after at least
that many one-minute health observations with every observation in the bake
window healthy; a full window of healthy observations does reach SHIFTING;
and the shift then sets the production weights to 0% old pool / 100% new
pool. -/
theorem c3_bake_fifteen_minutes_then_shift :
    deployConfiguration.bakeTimeInMinutes = 15
    ∧ (∀ s : ControllerState, s.phase = Phase.POST_TEST_HOOK →
        (step s (Event.hookVerdict HookStatus.SUCCEEDED)).phase = Phase.BAKING
          ∧ (step s (Event.hookVerdict HookStatus.SUCCEEDED)).bakeRemainingMinutes = 15)
    ∧ (∀ (s : ControllerState) (hs : List Bool), s.phase = Phase.BAKING →
        (run s (hs.map Event.bakeTick)).phase = Phase.SHIFTING →
        s.bakeRemainingMinutes ≤ hs.length
          ∧ (hs.take s.bakeRemainingMinutes).all id = true)
    ∧ (∀ s : ControllerState, s.phase = Phase.BAKING →
        s.bakeRemainingMinutes = 15 →
        (run s (List.replicate 15 (Event.bakeTick true))).phase = Phase.SHIFTING)
    ∧ (∀ s : ControllerState, s.phase = Phase.SHIFTING →
        (step s (Event.applyWeights true)).phase = Phase.FINALIZING
          ∧ (step s (Event.applyWeights true)).prodWeights
              = [(s.oldPool, 0), (s.newPool, 100)]) := by
  refine ⟨rfl, ?_, ?_, ?_, ?_⟩
  · intro s hp
    rw [step_hook_succeeded hp]
    exact ⟨rfl, rfl⟩
  · intro s hs hp hrun
    exact bake_shifting_requires_healthy_ticks hs s hp hrun
  · intro s hp hbr
    exact bake_healthy_run_shifts 15 s hp hbr (by omega)
  · intro s hp
    rcases s with ⟨p, op, np, pw, sw, br, tr, fr⟩
    dsimp only at hp ⊢
    subst hp
    exact ⟨rfl, rfl⟩

/-- Claim C3 witness: from the declared configuration, a successful hook
verdict arms a 15-minute bake, and 15 healthy one-minute observations reach
SHIFTING. -/
theorem c3_witness :
    (run (initState Pool.blue Pool.green [(Pool.blue, 100), (Pool.green, 0)])
        [Event.newImage, Event.poolHealthy, Event.testShifted,
         Event.hookVerdict HookStatus.SUCCEEDED]).phase = Phase.BAKING
    ∧ (run (initState Pool.blue Pool.green [(Pool.blue, 100), (Pool.green, 0)])
        [Event.newImage, Event.poolHealthy, Event.testShifted,
         Event.hookVerdict HookStatus.SUCCEEDED]).bakeRemainingMinutes = 15
    ∧ (run (run (initState Pool.blue Pool.green [(Pool.blue, 100), (Pool.green, 0)])
          [Event.newImage, Event.poolHealthy, Event.testShifted,
           Event.hookVerdict HookStatus.SUCCEEDED])
        (List.replicate 15 (Event.bakeTick true))).phase = Phase.SHIFTING :=
  ⟨by decide, by decide,
    c3_bake_fifteen_minutes_then_shift.2.2.2.1
      (run (initState Pool.blue Pool.green [(Pool.blue, 100), (Pool.green, 0)])
        [Event.newImage, Event.poolHealthy, Event.testShifted,
         Event.hookVerdict HookStatus.SUCCEEDED]) (by decide) (by decide)⟩

/-- Claim C4: exactly one lifecycle hook is declared, for exactly the
post-test-traffic-shift stage; a hook response carries a hookStatus that is
either SUCCEEDED or FAILED; and from POST_TEST_HOOK the controller proceeds
to BAKING exactly when the verdict is SUCCEEDED, otherwise it enters
ROLLING_BACK. -/
theorem c4_single_hook_stage_gates_baking :
    deployConfiguration.lifecycleHooks.length = 1
    ∧ deployConfiguration.lifecycleHooks.map LifecycleHookDecl.lifecycleStages
        = [["POST_TEST_TRAFFIC_SHIFT"]]
    ∧ (∀ r : HookResponse,
        r.hookStatus = HookStatus.SUCCEEDED ∨ r.hookStatus = HookStatus.FAILED)
    ∧ (∀ (s : ControllerState) (v : HookStatus), s.phase = Phase.POST_TEST_HOOK →
        (step s (Event.hookVerdict v)).phase
          = if v = HookStatus.SUCCEEDED then Phase.BAKING else Phase.ROLLING_BACK) := by
  refine ⟨rfl, rfl, ?_, ?_⟩
  · intro r
    rcases r with ⟨st⟩
    cases st
    · exact Or.inl rfl
    · exact Or.inr rfl
  · intro s v hp
    rcases s with ⟨p, op, np, pw, sw, br, tr, fr⟩
    dsimp only at hp ⊢
    subst hp
    cases v <;> rfl

/-- Claim C4 witness: a FAILED verdict at POST_TEST_HOOK enters ROLLING_BACK. -/
theorem c4_witness :
    (step
      { phase := Phase.POST_TEST_HOOK, oldPool := Pool.blue, newPool := Pool.green
      , prodWeights := [(Pool.blue, 100), (Pool.green, 0)]
      , savedWeights := [(Pool.blue, 100), (Pool.green, 0)]
      , bakeRemainingMinutes := 0, testRuleInstalled := true, failureReason := none }
      (Event.hookVerdict HookStatus.FAILED)).phase = Phase.ROLLING_BACK := by
  have h := c4_single_hook_stage_gates_baking.2.2.2
    { phase := Phase.POST_TEST_HOOK, oldPool := Pool.blue, newPool := Pool.green
    , prodWeights := [(Pool.blue, 100), (Pool.green, 0)]
    , savedWeights := [(Pool.blue, 100), (Pool.green, 0)]
    , bakeRemainingMinutes := 0, testRuleInstalled := true, failureReason := none }
    HookStatus.FAILED rfl
  simpa using h

/-- Claim C2: the production routing rule is an ordered list of (pool, weight)
pairs whose weights are non-negative integers summing to the fixed total 100;
exactly one declared rule is the production catch-all; the declared weights
are 100 for the blue pool and 0 for the green pool. -/
theorem c2_production_rule_invariants :
    mainRule.forward = [(Pool.blue, 100), (Pool.green, 0)]
    ∧ (mainRule.forward.all (fun t => 0 ≤ t.2)) = true
    ∧ sumWeights mainRule.forward = 100
    ∧ (listenerRules.filter isCatchAll).length = 1 := by
  decide

/-- Claim C5: listener rules are evaluated in order with first match winning;
in the declared configuration the production catch-all rule is the last
(and only) rule consulted before the default action, its priorities are
ascending, and every request path (which always starts with '/') is matched
by the catch-all and forwarded according to the production rule's weights. -/
theorem c5_first_match_catch_all_last :
    (∀ (r : ListenerRule) (rs : List ListenerRule) (path : List Char),
        evaluateRules (r :: rs) path
          = if ruleMatches r path then RouteAction.forward r.forward
            else evaluateRules rs path)
    ∧ List.Pairwise (fun a b => a.priority ≤ b.priority) listenerRules
    ∧ listenerRules.getLast? = some mainRule
    ∧ isCatchAll mainRule = true
    ∧ (∀ cs : List Char,
        evaluateRules listenerRules ('/' :: cs)
          = RouteAction.forward [(Pool.blue, 100), (Pool.green, 0)]) := by
  refine ⟨fun r rs path => rfl, by simp [listenerRules], rfl, rfl, ?_⟩
  intro cs
  have hm : ruleMatches mainRule ('/' :: cs) = true := by
    have hdata : "/*".data = ['/', '*'] := rfl
    simp [ruleMatches, mainRule, hdata, globMatch_slash_star]
  simp [listenerRules, evaluateRules, hm]
  rfl

/-- Claim C5 witness: the concrete request path /env is forwarded according
to the production rule's 100/0 weights. -/
theorem c5_witness :
    evaluateRules listenerRules ('/' :: "env".data)
      = RouteAction.forward [(Pool.blue, 100), (Pool.green, 0)] :=
  c5_first_match_catch_all_last.2.2.2.2 "env".data

/-- Claim C6 counterexample: the container health probe declared in
app-service.ts is one of the configured probes, and its configuration
surface has no consecutive-success threshold (Docker marks a container
healthy after a single probe success), so it is not the case that every
configured health probe classifies a member healthy after a configurable
number N of consecutive successes. -/
theorem c6_counterexample :
    containerProbe appContainerHealthCheck ∈ configuredProbes
    ∧ (containerProbe appContainerHealthCheck).healthySuccesses = none
    ∧ ¬ (∀ p ∈ configuredProbes,
          p.path = "/healthz" ∧ p.timeoutSeconds = 5 ∧ p.intervalSeconds = 30
            ∧ p.timeoutSeconds < p.intervalSeconds
            ∧ p.healthySuccesses.isSome = true) := by
  refine ⟨by decide, rfl, ?_⟩
  intro h
  have := (h (containerProbe appContainerHealthCheck) (by decide)).2.2.2.2
  simp [containerProbe, appContainerHealthCheck] at this

/-- Claim C6 (amended): every configured health probe targets /healthz with a
5-second timeout shorter than its 30-second interval; the two target-group
probes classify a member healthy after N consecutive successes and unhealthy
after M consecutive failures with N and M configurable independently of each
other (the blue group sets M = 5 while leaving N at the default 5, the green
group leaves both at the defaults N = 5, M = 2, and the schema admits any
combination); the container probe configures only the consecutive-failure
count (retries = 3) and has no consecutive-success threshold. -/
theorem c6_probe_configuration :
    (∀ p ∈ configuredProbes,
        p.path = "/healthz" ∧ p.timeoutSeconds = 5 ∧ p.intervalSeconds = 30
          ∧ p.timeoutSeconds < p.intervalSeconds)
    ∧ (tgProbe blueTgHealthCheck).healthySuccesses = some 5
    ∧ (tgProbe blueTgHealthCheck).unhealthyFailures = 5
    ∧ (tgProbe greenTgHealthCheck).healthySuccesses = some 5
    ∧ (tgProbe greenTgHealthCheck).unhealthyFailures = 2
    ∧ blueTgHealthCheck.healthyThresholdCount = none
    ∧ blueTgHealthCheck.unhealthyThresholdCount = some 5
    ∧ (∀ n m : Option Nat, ∃ c : TgHealthCheck,
        c.healthyThresholdCount = n ∧ c.unhealthyThresholdCount = m)
    ∧ (containerProbe appContainerHealthCheck).healthySuccesses = none
    ∧ (containerProbe appContainerHealthCheck).unhealthyFailures = 3 := by
  refine ⟨by decide, rfl, rfl, rfl, rfl, rfl, rfl, ?_, rfl, rfl⟩
  intro n m
  exact ⟨{ path := "/healthz", port := 8080, intervalSeconds := 30, timeoutSeconds := 5
         , healthyThresholdCount := n, unhealthyThresholdCount := m }, rfl, rfl⟩

/-- Claim C6 witness: the blue target-group probe concretely satisfies the
amended per-probe property. -/
theorem c6_witness :
    tgProbe blueTgHealthCheck ∈ configuredProbes
    ∧ ((tgProbe blueTgHealthCheck).path = "/healthz"
        ∧ (tgProbe blueTgHealthCheck).timeoutSeconds = 5
        ∧ (tgProbe blueTgHealthCheck).intervalSeconds = 30
        ∧ (tgProbe blueTgHealthCheck).timeoutSeconds
            < (tgProbe blueTgHealthCheck).intervalSeconds) :=
  ⟨by decide, c6_probe_configuration.1 (tgProbe blueTgHealthCheck) (by decide)⟩

/-- Claim C7: the load-balancer stack exposes the ALB DNS name as its single
output, unconditionally: the output list is a one-element constant, exactly
one output is named AlbDnsName, and the observed outputs are identical in
every rollout-controller state. -/
theorem c7_dns_output_unconditional :
    (∀ dns : String,
        loadBalancerStackOutputs dns = [{ name := "AlbDnsName", value := dns }])
    ∧ (∀ dns : String,
        ((loadBalancerStackOutputs dns).filter
          (fun o => o.name == "AlbDnsName")).length = 1)
    ∧ (∀ (dns : String) (s t : ControllerState),
        outputsDuring s dns = outputsDuring t dns) := by
  refine ⟨fun dns => rfl, ?_, fun dns s t => rfl⟩
  intro dns
  simp [loadBalancerStackOutputs]

/-- Claim C8: weight updates in the model are atomic full replacements (a
single transition, per the spec's setWeights contract), so the routing table
a concurrent reader observes is always one of the trace's states; starting
from any weight table summing to the fixed total 100, every reachable
state's production weights sum to 100, hence no reader ever observes an
inconsistent or partially applied weight table. -/
theorem c8_atomic_weight_updates (old new : Pool) (w : WeightList)
    (h : sumWeights w = 100) :
    ∀ es : List Event, sumWeights (run (initState old new w) es).prodWeights = 100 := by
  intro es
  exact (run_sumsToHundred es ⟨h, h⟩).1

/-- Claim C8 witness: along a concrete trace from the declared 100/0 table —
through shift and rollback events — the observed weights still sum to 100. -/
theorem c8_witness :
    sumWeights mainRule.forward = 100
    ∧ sumWeights (run (initState Pool.blue Pool.green mainRule.forward)
        [Event.newImage, Event.poolHealthy, Event.testShifted,
         Event.hookVerdict HookStatus.SUCCEEDED, Event.bakeTick false,
         Event.rollbackApplied]).prodWeights = 100 :=
  ⟨by decide,
    c8_atomic_weight_updates Pool.blue Pool.green mainRule.forward (by decide)
      [Event.newImage, Event.poolHealthy, Event.testShifted,
       Event.hookVerdict HookStatus.SUCCEEDED, Event.bakeTick false,
       Event.rollbackApplied]⟩

/-- Claim C9: the deployed lifecycle-hook handler returns hookStatus
SUCCEEDED for every input event and never FAILED, its function timeout is
90 seconds, and consequently a hook verdict produced by the handler always
lets the rollout proceed from POST_TEST_HOOK to BAKING — the hook gate can
never itself abort a rollout. -/
theorem c9_hook_handler_always_succeeds :
    (∀ e : HookEvent, hookHandler e = { hookStatus := HookStatus.SUCCEEDED })
    ∧ (∀ e : HookEvent, (hookHandler e).hookStatus ≠ HookStatus.FAILED)
    ∧ hookFnTimeoutSeconds = 90
    ∧ (∀ (s : ControllerState) (e : HookEvent), s.phase = Phase.POST_TEST_HOOK →
        (step s (Event.hookVerdict (hookHandler e).hookStatus)).phase = Phase.BAKING) := by
  refine ⟨fun e => rfl, fun e => by simp [hookHandler], rfl, ?_⟩
  intro s e hp
  have h1 : (hookHandler e).hookStatus = HookStatus.SUCCEEDED := rfl
  rw [h1, step_hook_succeeded hp]

/-- Claim C9 witness: at a concrete POST_TEST_HOOK state and a concrete
payload, the handler's verdict moves the rollout to BAKING. -/
theorem c9_witness :
    (step
      { phase := Phase.POST_TEST_HOOK, oldPool := Pool.blue, newPool := Pool.green
      , prodWeights := [(Pool.blue, 100), (Pool.green, 0)]
      , savedWeights := [(Pool.blue, 100), (Pool.green, 0)]
      , bakeRemainingMinutes := 0, testRuleInstalled := true, failureReason := none }
      (Event.hookVerdict
        (hookHandler
          { rolloutId := "rollout-1", stage := "POST_TEST_TRAFFIC_SHIFT"
          , timestampMs := 0 }).hookStatus)).phase = Phase.BAKING :=
  c9_hook_handler_always_succeeds.2.2.2
    { phase := Phase.POST_TEST_HOOK, oldPool := Pool.blue, newPool := Pool.green
    , prodWeights := [(Pool.blue, 100), (Pool.green, 0)]
    , savedWeights := [(Pool.blue, 100), (Pool.green, 0)]
    , bakeRemainingMinutes := 0, testRuleInstalled := true, failureReason := none }
    { rolloutId := "rollout-1", stage := "POST_TEST_TRAFFIC_SHIFT", timestampMs := 0 }
    rfl

/-- Claim C10: the service is declared with desiredCount 0, passed through
unchanged to the Fargate service; the pool-readiness predicate (healthy ≥
desired) holds vacuously, in particular with zero healthy members; and with
zero members the pool can serve no traffic. -/
theorem c10_desired_count_zero_vacuous_readiness :
    appServiceConfig.desiredCount = 0
    ∧ fargateServiceDesiredCount = 0
    ∧ poolReady fargateServiceDesiredCount 0 = true
    ∧ (∀ healthy : Nat, poolReady fargateServiceDesiredCount healthy = true)
    ∧ canServeTraffic fargateServiceDesiredCount = false := by
  refine ⟨rfl, rfl, rfl, ?_, rfl⟩
  intro healthy
  simp [poolReady, fargateServiceDesiredCount, appServiceConfig]

end DevopsChallenge
